import Mathlib

/-!
Shallow embedding of `src/delivery_manager.py`: a timed recipe-delivery
state machine.  Python floats (timestamps, the spawn timer) are modelled
as rationals; the injected clock is modelled by passing `now` explicitly;
the injected random source is modelled as a choice function
`List RecipeSO → Option RecipeSO` where `none` models the `IndexError`
that `random.choice` raises on an empty sequence.  Event publication is
modelled as a trace of event tags returned alongside the new state.
-/

namespace Kitchen

/-- Ingredient data (`KitchenObjectSO`): a display name and a numeric id. -/
structure KitchenObjectSO where
  name : String
  object_id : Int
deriving DecidableEq, Repr

/-- Recipe data (`RecipeSO`): a recipe name plus its required ingredient list. -/
structure RecipeSO where
  name : String
  kitchen_object_so_list : List KitchenObjectSO
deriving DecidableEq, Repr

/-- Recipe catalog data (`RecipeListSO`). -/
structure RecipeListSO where
  recipe_so_list : List RecipeSO
deriving DecidableEq, Repr

/-- Plate object (`PlateKitchenObject`): holds a list of ingredients. -/
structure PlateKitchenObject where
  kitchen_object_so_list : List KitchenObjectSO
deriving DecidableEq, Repr

/-- Getter `get_kitchen_object_so_list`: returns a copy of the plate's list
(`self._kitchen_object_so_list.copy()`); on values a copy is the value. -/
def PlateKitchenObject.get_kitchen_object_so_list (p : PlateKitchenObject) :
    List KitchenObjectSO :=
  p.kitchen_object_so_list

/-- Tags for the four event channels of the delivery manager. -/
inductive Ev where
  | spawned
  | completed
  | success
  | failed
deriving DecidableEq, Repr

def SPAWN_RECIPE_TIMER_MAX : ℚ := 4

def WAITING_RECIPES_MAX : Nat := 4

/-- The mutable state of the delivery manager (`__init__`'s fields). -/
structure DeliveryManager where
  recipe_list_so : RecipeListSO
  waiting_recipe_so_list : List RecipeSO
  spawn_recipe_timer : ℚ
  successful_recipes_amount : Nat
  last_update_time : Option ℚ
deriving DecidableEq, Repr

/-- Constructor `__init__(recipe_list_so, ...)`: stores the catalog, empty queue,
timer at `SPAWN_RECIPE_TIMER_MAX`, zero successes, no baseline yet.
There is no validation of the catalog here. -/
def DeliveryManager.init (recipe_list_so : RecipeListSO) : DeliveryManager :=
  { recipe_list_so := recipe_list_so
    waiting_recipe_so_list := []
    spawn_recipe_timer := SPAWN_RECIPE_TIMER_MAX
    successful_recipes_amount := 0
    last_update_time := none }

/-- Singleton accessor `get_instance(recipe_list_so)`: returns the existing instance if any;
otherwise raises `ValueError` when no catalog is supplied, else
constructs the instance. -/
def get_instance (inst : Option DeliveryManager) (recipe_list_so : Option RecipeListSO) :
    Except String DeliveryManager :=
  match inst with
  | some dm => Except.ok dm
  | none =>
    match recipe_list_so with
    | none => Except.error "recipe_list_so is required for initial creation"
    | some c => Except.ok (DeliveryManager.init c)

/-- Model of Python's `random.choice`: some element of a non-empty list
(selected by a seed), `none` (an `IndexError`) on the empty list. -/
def random_choice (seed : Nat) (l : List RecipeSO) : Option RecipeSO :=
  l.get? (seed % l.length)

/-- Per-tick `update()`: compute the elapsed delta from the recorded baseline
(zero on the first call), advance the spawn timer, and on expiry reset it
and attempt a spawn gated by game activity and queue capacity.  `choose`
is the injected random source; `none` from it models the `IndexError` of
`random.choice` on an empty catalog. -/
def update (choose : List RecipeSO → Option RecipeSO) (is_game_playing : Bool)
    (now : ℚ) (dm : DeliveryManager) : Option (DeliveryManager × List Ev) :=
  let last := dm.last_update_time.getD now
  let delta := now - last
  let dm1 := { dm with last_update_time := some now }
  let t := dm1.spawn_recipe_timer - delta
  if t ≤ 0 then
    let dm2 := { dm1 with spawn_recipe_timer := SPAWN_RECIPE_TIMER_MAX }
    if is_game_playing ∧ dm2.waiting_recipe_so_list.length < WAITING_RECIPES_MAX then
      match choose dm2.recipe_list_so.recipe_so_list with
      | none => none
      | some r =>
        some ({ dm2 with waiting_recipe_so_list := dm2.waiting_recipe_so_list ++ [r] },
          [Ev.spawned])
    else
      some (dm2, [])
  else
    some ({ dm1 with spawn_recipe_timer := t }, [])

/-- Matching predicate `_ingredients_match`: `Counter` equality of the two ingredient-id
lists, i.e. the id lists are permutations of one another. -/
def ingredients_match (plate_ingredients recipe_ingredients : List KitchenObjectSO) : Bool :=
  decide ((plate_ingredients.map fun o => o.object_id).Perm
    (recipe_ingredients.map fun o => o.object_id))

/-- The ingredient-identifier frequency maps of `xs` and `ys` are equal:
every identifier occurs equally often in both. -/
def freq_eq (xs ys : List KitchenObjectSO) : Prop :=
  ∀ id : Int, (xs.map fun o => o.object_id).count id = (ys.map fun o => o.object_id).count id

/-- The `for i, waiting_recipe in enumerate(...)` loop of
`deliver_recipe`: scan the queue in order, and at the first recipe whose
ingredients match return it together with the queue with that one entry
removed (`pop(i)`). -/
def deliver_scan (plate_ingredients : List KitchenObjectSO) :
    List RecipeSO → Option (RecipeSO × List RecipeSO)
  | [] => none
  | w :: rest =>
    if ingredients_match plate_ingredients w.kitchen_object_so_list then
      some (w, rest)
    else
      (deliver_scan plate_ingredients rest).map fun q => (q.1, w :: q.2)

/-- The body of `deliver_recipe` after the plate's ingredient list has
been read: validation of the plate and queue, then the matching loop. -/
def deliver_core (plate_ingredients : List KitchenObjectSO) (dm : DeliveryManager) :
    DeliveryManager × List Ev :=
  if plate_ingredients.isEmpty then (dm, [Ev.failed])
  else if dm.waiting_recipe_so_list.isEmpty then (dm, [Ev.failed])
  else
    match deliver_scan plate_ingredients dm.waiting_recipe_so_list with
    | some q =>
      ({ dm with
          waiting_recipe_so_list := q.2
          successful_recipes_amount := dm.successful_recipes_amount + 1 },
        [Ev.completed, Ev.success])
    | none => (dm, [Ev.failed])

/-- Delivery method `deliver_recipe(plate_kitchen_object)`: `None`-check, then read the
plate through its getter and run the validation and matching logic.  A
total function: no exception reaches the caller. -/
def deliver_recipe (plate_kitchen_object : Option PlateKitchenObject) (dm : DeliveryManager) :
    DeliveryManager × List Ev :=
  match plate_kitchen_object with
  | none => (dm, [Ev.failed])
  | some plate => deliver_core plate.get_kitchen_object_so_list dm

/-- Getter `get_waiting_recipe_so_list()`: a copy of the waiting queue. -/
def get_waiting_recipe_so_list (dm : DeliveryManager) : List RecipeSO :=
  dm.waiting_recipe_so_list

/-- Getter `get_successful_recipes_amount()`. -/
def get_successful_recipes_amount (dm : DeliveryManager) : Nat :=
  dm.successful_recipes_amount

/-! Sample data mirroring the usage example in the source. -/

def tomato : KitchenObjectSO := ⟨"Tomato", 1⟩

def lettuce : KitchenObjectSO := ⟨"Lettuce", 2⟩

def bread : KitchenObjectSO := ⟨"Bread", 3⟩

def salad_recipe : RecipeSO := ⟨"Salad", [lettuce, tomato]⟩

def sandwich_recipe : RecipeSO := ⟨"Sandwich", [bread, lettuce, tomato]⟩

def empty_catalog : RecipeListSO := ⟨[]⟩

def sample_catalog : RecipeListSO := ⟨[sandwich_recipe, salad_recipe]⟩

/-- Counter equality, as computed by `_ingredients_match`, is exactly
equality of the ingredient-identifier frequency maps. -/
theorem ingredients_match_iff_freq (xs ys : List KitchenObjectSO) :
    ingredients_match xs ys = true ↔ freq_eq xs ys := by
  simp only [ingredients_match, decide_eq_true_eq, freq_eq]
  exact List.perm_iff_count

/-- C9: the first call to `update` (no baseline recorded yet, timer still
at its construction value `SPAWN_RECIPE_TIMER_MAX`) only records the
supplied timestamp as the baseline: no spawn, no event, and the timer,
queue and success counter are unchanged. -/
theorem c9_first_update_records_baseline_only (choose : List RecipeSO → Option RecipeSO)
    (gate : Bool) (now : ℚ) (dm : DeliveryManager)
    (hlast : dm.last_update_time = none)
    (htimer : dm.spawn_recipe_timer = SPAWN_RECIPE_TIMER_MAX) :
    update choose gate now dm = some ({ dm with last_update_time := some now }, []) := by
  simp only [update, hlast, Option.getD_none, sub_self, sub_zero, htimer]
  rw [if_neg (by norm_num [SPAWN_RECIPE_TIMER_MAX])]

/-- Witness for C9 at a concrete fresh manager. -/
theorem c9_witness :
    update (random_choice 0) true 7 (DeliveryManager.init sample_catalog) =
      some ({ DeliveryManager.init sample_catalog with last_update_time := some 7 }, []) :=
  c9_first_update_records_baseline_only (random_choice 0) true 7
    (DeliveryManager.init sample_catalog) rfl rfl

/-- C6 counterexample: constructing the manager with an empty (non-null)
recipe catalog succeeds — `__init__` performs no catalog validation, so
the failure is NOT raised at construction time. -/
theorem c6_counterexample :
    get_instance none (some empty_catalog) = Except.ok (DeliveryManager.init empty_catalog) :=
  rfl

/-- C6 amended: first-constructing the singleton with no catalog fails
immediately with an error; constructing with an empty (non-null) catalog
succeeds, and the failure is instead deferred to the first spawn attempt,
where drawing from the empty catalog fails (`random.choice` raises). -/
theorem c6_amended_empty_catalog_defers_failure :
    get_instance none none = Except.error "recipe_list_so is required for initial creation" ∧
    (∀ cat, get_instance none (some cat) = Except.ok (DeliveryManager.init cat)) ∧
    (∀ (seed : Nat) (now t0 : ℚ), SPAWN_RECIPE_TIMER_MAX ≤ now - t0 →
      update (random_choice seed) true now
        { DeliveryManager.init empty_catalog with last_update_time := some t0 } = none) := by
  refine ⟨rfl, fun cat => rfl, fun seed now t0 hexp => ?_⟩
  simp only [update, DeliveryManager.init, empty_catalog, Option.getD_some]
  rw [if_pos (by linarith)]
  simp [random_choice, WAITING_RECIPES_MAX]

/-- Witness for the amended C6 at concrete inputs. -/
theorem c6_witness :
    update (random_choice 0) true 9
      { DeliveryManager.init empty_catalog with last_update_time := some 2 } = none :=
  c6_amended_empty_catalog_defers_failure.2.2 0 9 2 (by norm_num [SPAWN_RECIPE_TIMER_MAX])

/-- C5 counterexample: the claimed order-sensitivity of matching is
false — no plate can distinguish two recipes whose ingredient lists are
permutations of each other, because `_ingredients_match` compares
`Counter`s (frequency maps), which are order-insensitive. -/
theorem c5_counterexample :
    ¬ ∃ (plate : PlateKitchenObject) (r1 r2 : RecipeSO),
      r1.kitchen_object_so_list.Perm r2.kitchen_object_so_list ∧
      ingredients_match plate.get_kitchen_object_so_list r1.kitchen_object_so_list ≠
        ingredients_match plate.get_kitchen_object_so_list r2.kitchen_object_so_list := by
  rintro ⟨p, r1, r2, hperm, hne⟩
  apply hne
  simp only [ingredients_match]
  rw [decide_eq_decide]
  exact ⟨fun h => h.trans (hperm.map _), fun h => h.trans (hperm.map _).symm⟩

/-- C5 amended: for matching a plate against a recipe, the order of the
recipe's ingredient list is NOT semantically relevant (permutations match
exactly the same plates), but duplicate count IS: there exist a plate and
two recipes over the same ingredient set, differing only in duplicate
count, such that the plate matches one but not the other. -/
theorem c5_amended_order_irrelevant_duplicates_relevant :
    (∀ (plate r1 r2 : List KitchenObjectSO), r1.Perm r2 →
      ingredients_match plate r1 = ingredients_match plate r2) ∧
    (∃ (plate r1 r2 : List KitchenObjectSO),
      (∀ o, o ∈ r1 ↔ o ∈ r2) ∧
      ingredients_match plate r1 = true ∧ ingredients_match plate r2 = false) := by
  constructor
  · intro plate r1 r2 hperm
    simp only [ingredients_match]
    rw [decide_eq_decide]
    exact ⟨fun h => h.trans (hperm.map _), fun h => h.trans (hperm.map _).symm⟩
  · refine ⟨[tomato, tomato], [tomato, tomato], [tomato], fun o => ?_, by decide, by decide⟩
    simp [List.mem_cons]

/-- Witness for the amended C5: applying its universal part at a concrete
permutation pair. -/
theorem c5_witness :
    ingredients_match [tomato] [tomato, lettuce] =
      ingredients_match [tomato] [lettuce, tomato] :=
  c5_amended_order_irrelevant_duplicates_relevant.1 [tomato] [tomato, lettuce]
    [lettuce, tomato] (by decide)

/-- When no queued recipe matches, the matching loop finds nothing. -/
theorem deliver_scan_eq_none (ings : List KitchenObjectSO) (l : List RecipeSO)
    (h : ∀ w ∈ l, ingredients_match ings w.kitchen_object_so_list = false) :
    deliver_scan ings l = none := by
  induction l with
  | nil => rfl
  | cons w rest ih =>
    simp only [deliver_scan, h w (by simp)]
    simp [ih fun x hx => h x (by simp [hx])]

/-- When some queued recipe matches, the matching loop returns the
earliest match together with the queue with exactly that entry removed. -/
theorem deliver_scan_found (ings : List KitchenObjectSO) (l : List RecipeSO)
    (h : ∃ w ∈ l, ingredients_match ings w.kitchen_object_so_list = true) :
    ∃ pre m post, l = pre ++ m :: post ∧
      (∀ w ∈ pre, ingredients_match ings w.kitchen_object_so_list = false) ∧
      ingredients_match ings m.kitchen_object_so_list = true ∧
      deliver_scan ings l = some (m, pre ++ post) := by
  induction l with
  | nil => simp at h
  | cons w rest ih =>
    by_cases hw : ingredients_match ings w.kitchen_object_so_list = true
    · exact ⟨[], w, rest, by simp, by simp, hw, by simp [deliver_scan, hw]⟩
    · have hrest : ∃ x ∈ rest, ingredients_match ings x.kitchen_object_so_list = true := by
        rcases h with ⟨x, hx, hm⟩
        rcases List.mem_cons.mp hx with rfl | hx2
        · exact absurd hm hw
        · exact ⟨x, hx2, hm⟩
      obtain ⟨pre, m, post, heq, hpre, hm, hscan⟩ := ih hrest
      refine ⟨w :: pre, m, post, by simp [heq], ?_, hm, ?_⟩
      · intro x hx
        rcases List.mem_cons.mp hx with rfl | hx2
        · exact Bool.eq_false_iff.mpr hw
        · exact hpre x hx2
      · simp [deliver_scan, hw, hscan]

/-- C2: delivering a non-empty plate whose ingredient-identifier
frequency map equals that of at least one pending order succeeds: exactly
the earliest matching order (every earlier order does not match) is
removed from the queue, the success counter is incremented by one, and
"completed" then "success" fire, in that order. -/
theorem c2_deliver_matching_plate_succeeds (dm : DeliveryManager) (plate : PlateKitchenObject)
    (hne : plate.get_kitchen_object_so_list ≠ [])
    (hmatch : ∃ w ∈ dm.waiting_recipe_so_list,
      freq_eq plate.get_kitchen_object_so_list w.kitchen_object_so_list) :
    ∃ pre m post,
      dm.waiting_recipe_so_list = pre ++ m :: post ∧
      (∀ w ∈ pre, ¬ freq_eq plate.get_kitchen_object_so_list w.kitchen_object_so_list) ∧
      freq_eq plate.get_kitchen_object_so_list m.kitchen_object_so_list ∧
      deliver_recipe (some plate) dm =
        ({ dm with
            waiting_recipe_so_list := pre ++ post
            successful_recipes_amount := dm.successful_recipes_amount + 1 },
          [Ev.completed, Ev.success]) := by
  obtain ⟨w0, hw0, hfreq0⟩ := hmatch
  have hmatch2 : ∃ w ∈ dm.waiting_recipe_so_list,
      ingredients_match plate.get_kitchen_object_so_list w.kitchen_object_so_list = true :=
    ⟨w0, hw0, (ingredients_match_iff_freq _ _).mpr hfreq0⟩
  obtain ⟨pre, m, post, heq, hpre, hm, hscan⟩ :=
    deliver_scan_found plate.get_kitchen_object_so_list dm.waiting_recipe_so_list hmatch2
  refine ⟨pre, m, post, heq, ?_, (ingredients_match_iff_freq _ _).mp hm, ?_⟩
  · intro x hx hfx
    have := hpre x hx
    rw [(ingredients_match_iff_freq _ _).mpr hfx] at this
    exact Bool.true_eq_false.mp this
  · show deliver_core plate.get_kitchen_object_so_list dm = _
    have hq : ¬ dm.waiting_recipe_so_list.isEmpty := by
      rw [heq]; simp
    simp only [deliver_core, List.isEmpty_iff.ne.symm]
    rw [if_neg (by simpa using hne), if_neg (by simpa using hq), hscan]

/-- Witness for C2 at a concrete manager and plate. -/
theorem c2_witness :
    ∃ pre m post,
      ({ DeliveryManager.init sample_catalog with
          waiting_recipe_so_list := [salad_recipe] } :
          DeliveryManager).waiting_recipe_so_list = pre ++ m :: post ∧
      (∀ w ∈ pre, ¬ freq_eq (PlateKitchenObject.mk
        [tomato, lettuce]).get_kitchen_object_so_list w.kitchen_object_so_list) ∧
      freq_eq (PlateKitchenObject.mk
        [tomato, lettuce]).get_kitchen_object_so_list m.kitchen_object_so_list ∧
      deliver_recipe (some (PlateKitchenObject.mk [tomato, lettuce]))
          { DeliveryManager.init sample_catalog with
            waiting_recipe_so_list := [salad_recipe] } =
        ({ { DeliveryManager.init sample_catalog with
              waiting_recipe_so_list := [salad_recipe] } with
            waiting_recipe_so_list := pre ++ post
            successful_recipes_amount :=
              ({ DeliveryManager.init sample_catalog with
                waiting_recipe_so_list := [salad_recipe] } :
                DeliveryManager).successful_recipes_amount + 1 },
          [Ev.completed, Ev.success]) :=
  c2_deliver_matching_plate_succeeds
    { DeliveryManager.init sample_catalog with waiting_recipe_so_list := [salad_recipe] }
    (PlateKitchenObject.mk [tomato, lettuce]) (by decide)
    ⟨salad_recipe, by simp, (ingredients_match_iff_freq _ _).mp (by decide)⟩

/-- C3: a deliver call with a null plate, an empty plate, an empty
pending queue, or no pending order whose frequency map equals the
plate's, publishes exactly the "failure" event and leaves the whole
manager state (queue and success counter included) unchanged; the
function is total, so no exception reaches the caller. -/
theorem c3_deliver_failure_no_mutation (dm : DeliveryManager) (plate : Option PlateKitchenObject)
    (h : plate = none ∨ ∃ p, plate = some p ∧
      (p.get_kitchen_object_so_list = [] ∨ dm.waiting_recipe_so_list = [] ∨
        ∀ w ∈ dm.waiting_recipe_so_list,
          ¬ freq_eq p.get_kitchen_object_so_list w.kitchen_object_so_list)) :
    deliver_recipe plate dm = (dm, [Ev.failed]) := by
  rcases h with rfl | ⟨p, rfl, hp⟩
  · rfl
  · show deliver_core p.get_kitchen_object_so_list dm = _
    by_cases h1 : p.get_kitchen_object_so_list.isEmpty
    · simp [deliver_core, h1]
    · rw [deliver_core, if_neg h1]
      by_cases h2 : dm.waiting_recipe_so_list.isEmpty
      · simp [h2]
      · rw [if_neg h2]
        rcases hp with hp | hp | hp
        · exact absurd (by simp [hp] : p.get_kitchen_object_so_list.isEmpty = true) h1
        · exact absurd (by simp [hp] : dm.waiting_recipe_so_list.isEmpty = true) h2
        · rw [deliver_scan_eq_none]
          intro w hw
          have := hp w hw
          rw [← ingredients_match_iff_freq] at this
          exact Bool.not_eq_true _ ▸ (by simpa using this)

/-- Witness for C3 at a concrete failing delivery (no matching order). -/
theorem c3_witness :
    deliver_recipe (some (PlateKitchenObject.mk [bread]))
      { DeliveryManager.init sample_catalog with waiting_recipe_so_list := [salad_recipe] } =
      ({ DeliveryManager.init sample_catalog with waiting_recipe_so_list := [salad_recipe] },
        [Ev.failed]) :=
  c3_deliver_failure_no_mutation
    { DeliveryManager.init sample_catalog with waiting_recipe_so_list := [salad_recipe] }
    (some (PlateKitchenObject.mk [bread]))
    (Or.inr ⟨PlateKitchenObject.mk [bread], rfl, Or.inr (Or.inr (by
      intro w hw hfx
      have : ingredients_match [bread] w.kitchen_object_so_list = true :=
        (ingredients_match_iff_freq _ _).mpr hfx
      simp only [List.mem_singleton] at hw
      subst hw
      exact absurd this (by decide)))⟩)

/-- C1: on every `update` call with a recorded baseline, a recipe drawn
from the catalog is appended to the queue and "spawned" fires if and only
if the timer minus the elapsed delta is `≤ 0`, the game-activity gate is
active and the queue is strictly below `WAITING_RECIPES_MAX`; and the
timer is reset to exactly `SPAWN_RECIPE_TIMER_MAX` whenever it crossed
`≤ 0`, whether or not the spawn occurred and however far below zero it
went, else it just carries the subtraction. -/
theorem c1_update_spawn_iff (choose : List RecipeSO → Option RecipeSO) (gate : Bool)
    (dm : DeliveryManager) (now t0 : ℚ) (r : RecipeSO)
    (hlast : dm.last_update_time = some t0)
    (hch : choose dm.recipe_list_so.recipe_so_list = some r)
    (hmem : ∀ (l : List RecipeSO) (r0 : RecipeSO), choose l = some r0 → r0 ∈ l) :
    r ∈ dm.recipe_list_so.recipe_so_list ∧
    ∃ dm' evs, update choose gate now dm = some (dm', evs) ∧
      ((evs = [Ev.spawned] ∧
          dm'.waiting_recipe_so_list = dm.waiting_recipe_so_list ++ [r]) ↔
        (dm.spawn_recipe_timer - (now - t0) ≤ 0 ∧ gate = true ∧
          dm.waiting_recipe_so_list.length < WAITING_RECIPES_MAX)) ∧
      (¬ (dm.spawn_recipe_timer - (now - t0) ≤ 0 ∧ gate = true ∧
            dm.waiting_recipe_so_list.length < WAITING_RECIPES_MAX) →
        evs = [] ∧ dm'.waiting_recipe_so_list = dm.waiting_recipe_so_list) ∧
      dm'.spawn_recipe_timer =
        (if dm.spawn_recipe_timer - (now - t0) ≤ 0 then SPAWN_RECIPE_TIMER_MAX
          else dm.spawn_recipe_timer - (now - t0)) ∧
      dm'.last_update_time = some now ∧
      dm'.successful_recipes_amount = dm.successful_recipes_amount ∧
      dm'.recipe_list_so = dm.recipe_list_so := by
  refine ⟨hmem _ _ hch, ?_⟩
  by_cases h1 : dm.spawn_recipe_timer - (now - t0) ≤ 0
  · by_cases h2 : gate = true ∧ dm.waiting_recipe_so_list.length < WAITING_RECIPES_MAX
    · refine ⟨{ dm with
          last_update_time := some now
          spawn_recipe_timer := SPAWN_RECIPE_TIMER_MAX
          waiting_recipe_so_list := dm.waiting_recipe_so_list ++ [r] },
        [Ev.spawned], ?_, ?_, ?_, ?_, rfl, rfl, rfl⟩
      · simp only [update, hlast, Option.getD_some]
        rw [if_pos h1, if_pos h2, hch]
      · simp [h1, h2.1, h2.2]
      · exact fun hc => absurd ⟨h1, h2⟩ hc
      · rw [if_pos h1]
    · refine ⟨{ dm with
          last_update_time := some now
          spawn_recipe_timer := SPAWN_RECIPE_TIMER_MAX },
        [], ?_, ?_, ?_, ?_, rfl, rfl, rfl⟩
      · simp only [update, hlast, Option.getD_some]
        rw [if_pos h1, if_neg h2]
      · constructor
        · rintro ⟨hc, -⟩
          exact absurd hc (by simp)
        · rintro ⟨-, hg, hl⟩
          exact absurd ⟨hg, hl⟩ h2
      · exact fun _ => ⟨rfl, rfl⟩
      · rw [if_pos h1]
  · refine ⟨{ dm with
        last_update_time := some now
        spawn_recipe_timer := dm.spawn_recipe_timer - (now - t0) },
      [], ?_, ?_, ?_, ?_, rfl, rfl, rfl⟩
    · simp only [update, hlast, Option.getD_some]
      rw [if_neg h1]
    · constructor
      · rintro ⟨hc, -⟩
        exact absurd hc (by simp)
      · rintro ⟨ht, -, -⟩
        exact absurd ht h1
    · exact fun _ => ⟨rfl, rfl⟩
    · rw [if_neg h1]

/-- Witness for C1 at a concrete spawning call. -/
theorem c1_witness :
    sandwich_recipe ∈
      ({ DeliveryManager.init sample_catalog with last_update_time := some 0 } :
        DeliveryManager).recipe_list_so.recipe_so_list ∧
    ∃ dm' evs, update (random_choice 0) true 5
        { DeliveryManager.init sample_catalog with last_update_time := some 0 } =
        some (dm', evs) ∧
      ((evs = [Ev.spawned] ∧
          dm'.waiting_recipe_so_list =
            ({ DeliveryManager.init sample_catalog with
              last_update_time := some 0 } :
              DeliveryManager).waiting_recipe_so_list ++ [sandwich_recipe]) ↔
        (({ DeliveryManager.init sample_catalog with
            last_update_time := some 0 } :
            DeliveryManager).spawn_recipe_timer - (5 - 0) ≤ 0 ∧ true = true ∧
          ({ DeliveryManager.init sample_catalog with
            last_update_time := some 0 } :
            DeliveryManager).waiting_recipe_so_list.length < WAITING_RECIPES_MAX)) ∧
      (¬ (({ DeliveryManager.init sample_catalog with
            last_update_time := some 0 } :
            DeliveryManager).spawn_recipe_timer - (5 - 0) ≤ 0 ∧ true = true ∧
          ({ DeliveryManager.init sample_catalog with
            last_update_time := some 0 } :
            DeliveryManager).waiting_recipe_so_list.length < WAITING_RECIPES_MAX) →
        evs = [] ∧ dm'.waiting_recipe_so_list =
          ({ DeliveryManager.init sample_catalog with
            last_update_time := some 0 } :
            DeliveryManager).waiting_recipe_so_list) ∧
      dm'.spawn_recipe_timer =
        (if ({ DeliveryManager.init sample_catalog with
            last_update_time := some 0 } :
            DeliveryManager).spawn_recipe_timer - (5 - 0) ≤ 0 then SPAWN_RECIPE_TIMER_MAX
          else ({ DeliveryManager.init sample_catalog with
            last_update_time := some 0 } :
            DeliveryManager).spawn_recipe_timer - (5 - 0)) ∧
      dm'.last_update_time = some 5 ∧
      dm'.successful_recipes_amount =
        ({ DeliveryManager.init sample_catalog with
          last_update_time := some 0 } :
          DeliveryManager).successful_recipes_amount ∧
      dm'.recipe_list_so =
        ({ DeliveryManager.init sample_catalog with
          last_update_time := some 0 } :
          DeliveryManager).recipe_list_so :=
  c1_update_spawn_iff (random_choice 0) true
    { DeliveryManager.init sample_catalog with last_update_time := some 0 }
    5 0 sandwich_recipe rfl rfl (fun _ _ h => List.get?_mem h)

/-- A successful `update` call never pushes the queue length above the
bound: the spawn branch is guarded by strict inequality. -/
theorem update_length_le (choose : List RecipeSO → Option RecipeSO) (gate : Bool)
    (now : ℚ) (dm dm' : DeliveryManager) (evs : List Ev)
    (h : update choose gate now dm = some (dm', evs))
    (hlen : dm.waiting_recipe_so_list.length ≤ WAITING_RECIPES_MAX) :
    dm'.waiting_recipe_so_list.length ≤ WAITING_RECIPES_MAX := by
  simp only [update] at h
  split at h
  · split at h
    · rename_i hguard
      split at h
      · exact absurd h (by simp)
      · rename_i r hch
        rw [Option.some_inj, Prod.mk.injEq] at h
        rw [← h.1]
        simpa using hguard.2
    · rw [Option.some_inj, Prod.mk.injEq] at h
      rw [← h.1]
      exact hlen
  · rw [Option.some_inj, Prod.mk.injEq] at h
    rw [← h.1]
    exact hlen

/-- The matching loop removes exactly one element when it finds a match. -/
theorem deliver_scan_length (ings : List KitchenObjectSO) (l : List RecipeSO)
    (m : RecipeSO) (rest : List RecipeSO) (h : deliver_scan ings l = some (m, rest)) :
    rest.length + 1 = l.length := by
  induction l generalizing m rest with
  | nil => simp [deliver_scan] at h
  | cons w tail ih =>
    simp only [deliver_scan] at h
    split at h
    · cases h
      simp
    · cases hs : deliver_scan ings tail with
      | none => rw [hs] at h; simp at h
      | some q =>
        rw [hs] at h
        simp only [Option.map_some'] at h
        cases h
        simp [← ih q.1 q.2 (by rw [hs])]

/-- `deliver_recipe` never lengthens the queue. -/
theorem deliver_length_le (plate : Option PlateKitchenObject) (dm : DeliveryManager) :
    (deliver_recipe plate dm).1.waiting_recipe_so_list.length ≤
      dm.waiting_recipe_so_list.length := by
  cases plate with
  | none => simp [deliver_recipe]
  | some p =>
    show (deliver_core _ dm).1.waiting_recipe_so_list.length ≤ _
    rw [deliver_core]
    split
    · simp
    · split
      · simp
      · split
        · rename_i q hs
          have := deliver_scan_length _ _ q.1 q.2 (by rw [hs])
          simp only
          omega
        · simp

/-- The states reachable from a freshly constructed manager by any
sequence of (successful) `update` calls and `deliver_recipe` calls. -/
inductive Reach : DeliveryManager → Prop where
  | start : ∀ cat, Reach (DeliveryManager.init cat)
  | step_update : ∀ choose gate now dm dm' evs, Reach dm →
      update choose gate now dm = some (dm', evs) → Reach dm'
  | step_deliver : ∀ plate dm, Reach dm → Reach (deliver_recipe plate dm).1

/-- C4: in every state reachable from a freshly constructed manager by
`update` and `deliver` calls, the pending queue never exceeds
`WAITING_RECIPES_MAX` (= 4) entries. -/
theorem c4_queue_length_bounded (dm : DeliveryManager) (h : Reach dm) :
    dm.waiting_recipe_so_list.length ≤ WAITING_RECIPES_MAX := by
  induction h with
  | start cat => simp [DeliveryManager.init, WAITING_RECIPES_MAX]
  | step_update choose gate now dm0 dm' evs _ hu ih =>
    exact update_length_le choose gate now dm0 dm' evs hu ih
  | step_deliver plate dm0 _ ih =>
    exact le_trans (deliver_length_le plate dm0) ih

/-- Witness for C4 at a concrete reachable state. -/
theorem c4_witness :
    (deliver_recipe none (DeliveryManager.init sample_catalog)).1.waiting_recipe_so_list.length ≤
      WAITING_RECIPES_MAX :=
  c4_queue_length_bounded _
    (Reach.step_deliver none _ (Reach.start sample_catalog))

/-!
Embedding of the `Event` class.  Python compares handlers (callables) by
identity in `in` / `remove`; handlers are therefore modelled by a
numeric identity, with their behaviour given by a `run` map from
identities to state transformers that may raise (`Except.error`).
-/

/-- Method `Event.add_handler`: append the handler only if not yet present. -/
def add_handler (handlers : List Nat) (h : Nat) : List Nat :=
  if h ∈ handlers then handlers else handlers ++ [h]

/-- Method `Event.remove_handler`: remove the handler if present. -/
def remove_handler (handlers : List Nat) (h : Nat) : List Nat :=
  if h ∈ handlers then handlers.erase h else handlers

/-- Method `Event.invoke`: call each handler in registration order inside a
`try`/`except`; a raising handler leaves the state as it was and the loop
continues.  The second component is the trace of handlers invoked, in
order.  The function is total: no handler error escapes to the caller. -/
def invoke {σ : Type} (run : Nat → σ → Except String σ) :
    List Nat → σ → σ × List Nat
  | [], s => (s, [])
  | h :: hs, s =>
    let s1 := match run h s with
      | Except.ok s2 => s2
      | Except.error _ => s
    let rest := invoke run hs s1
    (rest.1, h :: rest.2)

/-- C7: (i) subscribing the same handler twice is a no-op, (ii) a publish
invokes exactly the currently registered handlers, in subscription order,
(iii) a handler that raises is caught — the state it would have changed
is left alone and every remaining handler still runs — and `invoke` being
total, nothing propagates to the publisher, and (iv) after a duplicate
subscription one publish invokes the handler exactly once. -/
theorem c7_event_channel_contract (σ : Type) :
    (∀ (handlers : List Nat) (h : Nat),
      add_handler (add_handler handlers h) h = add_handler handlers h) ∧
    (∀ (run : Nat → σ → Except String σ) (handlers : List Nat) (s : σ),
      (invoke run handlers s).2 = handlers) ∧
    (∀ (run : Nat → σ → Except String σ) (h : Nat) (handlers : List Nat) (s : σ)
      (msg : String), run h s = Except.error msg →
      invoke run (h :: handlers) s =
        ((invoke run handlers s).1, h :: (invoke run handlers s).2)) ∧
    (∀ (run : Nat → σ → Except String σ) (h : Nat) (s : σ),
      ((invoke run (add_handler (add_handler [] h) h) s).2).count h = 1) := by
  refine ⟨fun handlers h => ?_, fun run handlers s => ?_, fun run h handlers s msg hm => ?_,
    fun run h s => ?_⟩
  · by_cases hmem : h ∈ handlers
    · simp [add_handler, hmem]
    · simp [add_handler, hmem]
  · induction handlers generalizing s with
    | nil => rfl
    | cons h hs ih => simp [invoke, ih]
  · simp [invoke, hm]
  · simp [add_handler, invoke]

/-- Witness for C7: a raising handler is skipped while the remaining
handler still runs, at concrete inputs. -/
theorem c7_witness :
    invoke (fun _ _ => (Except.error "boom" : Except String Nat)) [0, 1] 5 =
      ((invoke (fun _ _ => (Except.error "boom" : Except String Nat)) [1] 5).1,
        0 :: (invoke (fun _ _ => (Except.error "boom" : Except String Nat)) [1] 5).2) :=
  (c7_event_channel_contract Nat).2.2.1 (fun _ _ => Except.error "boom") 0 [1] 5 "boom" rfl

/-!
A small mutable-heap model for the aliasing claims: Python list objects
live in a store indexed by allocation order, and variables hold
references (indices).  `list(xs)` / `xs.copy()` allocate a fresh cell.
-/

/-- Read the list object a reference points to. -/
def heap_read {α : Type} (heap : List α) (r : Nat) : Option α :=
  heap[r]?

/-- In-place mutation of the list object a reference points to. -/
def heap_write {α : Type} (heap : List α) (r : Nat) (v : α) : List α :=
  heap.set r v

/-- Allocate a fresh list object; returns the new heap and reference. -/
def heap_alloc {α : Type} (heap : List α) (v : α) : List α × Nat :=
  (heap ++ [v], heap.length)

/-- Heap-level `get_waiting_recipe_so_list`: the source's `list(self._waiting...)`
reads the internal queue object and allocates a fresh copy of it,
returning the fresh reference. -/
def get_waiting_snapshot (heap : List (List RecipeSO)) (waiting_ref : Nat) :
    List (List RecipeSO) × Nat :=
  heap_alloc heap ((heap_read heap waiting_ref).getD [])

/-- C8: two snapshot calls with no intervening mutation return
value-equal snapshots (both equal to the internal queue's value), and
mutating either returned snapshot object leaves the internal queue
object untouched: the getter returns defensive copies at fresh
references. -/
theorem c8_snapshot_defensive_copy (heap h1 h2 : List (List RecipeSO))
    (waiting_ref r1 r2 : Nat) (hwr : waiting_ref < heap.length)
    (e1 : get_waiting_snapshot heap waiting_ref = (h1, r1))
    (e2 : get_waiting_snapshot h1 waiting_ref = (h2, r2)) :
    heap_read h2 r1 = heap_read h2 r2 ∧
    heap_read h2 r1 = heap_read heap waiting_ref ∧
    (∀ v, heap_read (heap_write h2 r1 v) waiting_ref = heap_read h2 waiting_ref) ∧
    (∀ v, heap_read (heap_write h2 r2 v) waiting_ref = heap_read h2 waiting_ref) := by
  obtain ⟨w, hw⟩ : ∃ w, heap_read heap waiting_ref = some w := by
    simp only [heap_read]
    exact ⟨heap[waiting_ref], List.getElem?_eq_getElem hwr⟩
  simp only [get_waiting_snapshot, heap_alloc, hw, Option.getD_some, Prod.mk.injEq] at e1
  obtain ⟨rfl, rfl⟩ := e1
  have hw1 : heap_read (heap ++ [w]) waiting_ref = some w := by
    simp only [heap_read, List.getElem?_append, if_pos hwr]
    exact hw
  simp only [get_waiting_snapshot, heap_alloc, hw1, Option.getD_some, Prod.mk.injEq] at e2
  obtain ⟨rfl, rfl⟩ := e2
  have hlen1 : waiting_ref < (heap ++ [w]).length := by
    simp
    omega
  refine ⟨?_, ?_, ?_, ?_⟩
  · simp only [heap_read, List.getElem?_append, List.length_append, List.length_singleton]
    rw [if_pos (by simp), if_neg (by simp)]
    simp [List.getElem?_concat_length]
  · simp only [heap_read, List.getElem?_append, List.length_append, List.length_singleton]
    rw [if_neg (lt_irrefl _), Nat.sub_self]
    simpa [heap_read] using hw.symm
  · intro v
    simp only [heap_read, heap_write]
    rw [List.getElem?_set_ne (by omega)]
  · intro v
    simp only [heap_read, heap_write]
    rw [List.getElem?_set_ne (by omega)]

/-- Witness for C8 at a concrete one-cell heap. -/
theorem c8_witness :
    heap_read [[salad_recipe], [salad_recipe], [salad_recipe]] 1 =
      heap_read [[salad_recipe], [salad_recipe], [salad_recipe]] 2 ∧
    heap_read [[salad_recipe], [salad_recipe], [salad_recipe]] 1 =
      heap_read [[salad_recipe]] 0 ∧
    (∀ v, heap_read (heap_write [[salad_recipe], [salad_recipe], [salad_recipe]] 1 v) 0 =
      heap_read [[salad_recipe], [salad_recipe], [salad_recipe]] 0) ∧
    (∀ v, heap_read (heap_write [[salad_recipe], [salad_recipe], [salad_recipe]] 2 v) 0 =
      heap_read [[salad_recipe], [salad_recipe], [salad_recipe]] 0) :=
  c8_snapshot_defensive_copy [[salad_recipe]] [[salad_recipe], [salad_recipe]]
    [[salad_recipe], [salad_recipe], [salad_recipe]] 0 1 2 (by decide) rfl rfl

/-- The plate getter at heap level: read the plate's ingredient-list
object and allocate the copy that `.copy()` returns; the manager consumes
the copied value. -/
def plate_getter_heap (heap : List (List KitchenObjectSO)) (plate_ref : Nat) :
    List (List KitchenObjectSO) × Nat × List KitchenObjectSO :=
  ((heap_alloc heap ((heap_read heap plate_ref).getD [])).1,
    (heap_alloc heap ((heap_read heap plate_ref).getD [])).2,
    (heap_read heap plate_ref).getD [])

/-- Heap-level `deliver_recipe`: the plate's list object lives in the
heap; the manager reads it through the copying getter and then only
counts ingredients in the copied value. -/
def deliver_recipe_heap (heap : List (List KitchenObjectSO)) (plate_ref : Option Nat)
    (dm : DeliveryManager) : List (List KitchenObjectSO) × DeliveryManager × List Ev :=
  match plate_ref with
  | none => (heap, dm, [Ev.failed])
  | some pr =>
    ((plate_getter_heap heap pr).1, deliver_core (plate_getter_heap heap pr).2.2 dm)

/-- C10: `deliver_recipe` never mutates the submitted plate — the list
object the plate's reference points to is identical before and after the
call (the getter allocates a copy and the manager only counts it). -/
theorem c10_deliver_plate_unmutated (heap : List (List KitchenObjectSO))
    (pr : Nat) (dm : DeliveryManager) (hpr : pr < heap.length) :
    heap_read (deliver_recipe_heap heap (some pr) dm).1 pr = heap_read heap pr ∧
    (deliver_recipe_heap heap none dm).1 = heap := by
  refine ⟨?_, rfl⟩
  simp only [deliver_recipe_heap, plate_getter_heap, heap_alloc, heap_read]
  rw [List.getElem?_append, if_pos hpr]

/-- Witness for C10 at a concrete heap and delivery. -/
theorem c10_witness :
    heap_read (deliver_recipe_heap [[tomato, lettuce]] (some 0)
        { DeliveryManager.init sample_catalog with
          waiting_recipe_so_list := [salad_recipe] }).1 0 =
      heap_read [[tomato, lettuce]] 0 ∧
    (deliver_recipe_heap [[tomato, lettuce]] none
        { DeliveryManager.init sample_catalog with
          waiting_recipe_so_list := [salad_recipe] }).1 = [[tomato, lettuce]] :=
  c10_deliver_plate_unmutated [[tomato, lettuce]] 0
    { DeliveryManager.init sample_catalog with waiting_recipe_so_list := [salad_recipe] }
    (by decide)

end Kitchen
